import Mathlib

/-!
Shallow embedding of `src/scanner.py` (akail/scanner): a pipeline that drives
the external tools `scanimage`, `tesseract`, `convert` and `gs` to turn scanned
pages into one PDF.  The embedding models the program as a pure function from a
resolved configuration and an environment to a trace of observable events plus
a process exit status.  Strings model Python strings and paths; `Int` models
Python integers.
-/

namespace Scanner

/-- Models Python `str.endswith`: the suffix's characters are a suffix of the
string's characters. -/
def pyEndsWith (s suffix : String) : Bool :=
  suffix.data.isSuffixOf s.data

/-- Models the rendering Python applies inside an f-string to a value that may
be `None`: `str(None)` is the four-character string "None", otherwise the
string itself.  Used for the unset `--sane-device` option (scanner.py line
113). -/
def pyFormatOptStr : Option String → String
  | none => "None"
  | some s => s

/-- Models `pathlib.Path(d) / Path(f)` for a relative `f`: joined with a
separator, except that a lone "." directory contributes nothing and a trailing
separator is not doubled. -/
def pathJoin (d f : String) : String :=
  if d = "." then f
  else if pyEndsWith d "/" then d ++ f
  else d ++ "/" ++ f

/-- Helper for `withSuffix`: walking the reversed character list of a path,
drop up to and including the last dot of the final component; `none` when the
final component has no dot. -/
def splitAtLastDot : List Char → Option (List Char)
  | [] => none
  | c :: rest =>
    if c = '.' then some rest
    else if c = '/' then none
    else splitAtLastDot rest

/-- Models `pathlib.PurePath.with_suffix`: replace the extension of the final
path component (everything from its last dot on) with `suf`, or append `suf`
when there is no extension.  The program calls it with `""` and `".pdf"`
(scanner.py lines 132-133). -/
def withSuffix (p suf : String) : String :=
  match splitAtLastDot p.data.reverse with
  | some stemRev => String.mk stemRev.reverse ++ suf
  | none => p ++ suf

/-- GS_OPTIONS, scanner.py lines 24-34: the fixed ghostscript option set. -/
def GS_OPTIONS : List String :=
  [ "-sDEVICE=pdfwrite",
    "-dCompatibilityLevel=1.4",
    "-dPDFSETTINGS=/default",
    "-dNOPAUSE",
    "-dQUIET",
    "-dBATCH",
    "-dDetectDuplicateImages",
    "-dCompressFonts=true",
    "-r150" ]

/-- Observable events of one run: log lines, `sys.exit`, temporary-directory
lifecycle, interactive prompts, files opened for writing, subprocess
invocations (by full argv), `print` output, and `shutil.copyfile` calls. -/
inductive Event
  | logError (msg : String)
  | exitCall (code : Nat)
  | mkTempDir (dir : String)
  | rmTempDir (dir : String)
  | promptInput (msg : String)
  | openWrite (path : String)
  | runCmd (argv : List String)
  | printLine (msg : String)
  | printCmdList (argv : List String)
  | copyFile (src dst : String)
  deriving DecidableEq

/-- The resolved configuration reaching `main` (scanner.py lines 60-84) after
click has parsed flags, environment variables and the page-count prompt.
`pages` is a Python `int` (click `type=int` imposes no sign constraint);
`sane_device` is `None` when neither flag nor environment variable set it. -/
structure Config where
  sane_device : Option String
  sane_resolution : Int
  sane_brightness : Int
  sane_contrast : Int
  sane_mode : String
  pages : Int
  output_dir : String
  no_ocr : Bool
  filename : String

/-- The environment of one run: which of the four required executables
`shutil.which` finds, which files exist when `final_output.exists()` is
checked, the name `tempfile.TemporaryDirectory` allocates, and whether the
publishing `shutil.copyfile` succeeds (it can raise, e.g. on an unreadable
source or unwritable destination). -/
structure Env where
  hasConvert : Bool
  hasTesseract : Bool
  hasScanimage : Bool
  hasGs : Bool
  fileExists : String → Bool
  tempdirName : String
  copyOk : Bool

/-- How the body of `main` ends: a normal return, or an exception that
propagates out of the body (to be caught by the `logger.catch` decorator). -/
inductive Outcome
  | returned
  | raisedCaught (msg : String)
  deriving DecidableEq

/-- Log message for a missing ImageMagick convert (scanner.py line 41). -/
def convertMissingMsg : String := "ImageMagick command convert is not installed"

/-- Log message for a missing tesseract (scanner.py line 44). -/
def tesseractMissingMsg : String := "Tesseract is not installed"

/-- Log message for a missing scanimage (scanner.py line 47). -/
def scanimageMissingMsg : String := "Sane is not installed"

/-- Log message for a missing ghostscript (scanner.py line 50). -/
def gsMissingMsg : String := "Ghostscript is not installed"

/-- look_for_required_commands, scanner.py lines 37-54: log one error per
missing command, and call `sys.exit(1)` if any is missing.  Returns the events
it emits and `some code` when it exits the process. -/
def look_for_required_commands (e : Env) : List Event × Option Nat :=
  let evs :=
    (if e.hasConvert then [] else [Event.logError convertMissingMsg])
    ++ (if e.hasTesseract then [] else [Event.logError tesseractMissingMsg])
    ++ (if e.hasScanimage then [] else [Event.logError scanimageMissingMsg])
    ++ (if e.hasGs then [] else [Event.logError gsMissingMsg])
  let fail := !e.hasConvert || !e.hasTesseract || !e.hasScanimage || !e.hasGs
  if fail then (evs ++ [Event.exitCall 1], some 1) else (evs, none)

/-- Filename normalization, scanner.py lines 87-88: append ".pdf" unless the
filename already ends with it. -/
def normalizeFilename (filename : String) : String :=
  if pyEndsWith filename ".pdf" then filename else filename ++ ".pdf"

/-- final_output, scanner.py line 90: the output directory joined with the
normalized filename. -/
def finalOutput (c : Config) : String :=
  pathJoin c.output_dir (normalizeFilename c.filename)

/-- page_path for one page index, scanner.py lines 106-107. -/
def pagePath (tempdir : String) (page : Nat) : String :=
  pathJoin tempdir ("page_" ++ toString page ++ ".tiff")

/-- The scanimage argv, scanner.py lines 109-126.  Every scalar option is
rendered through `str`; the device is rendered through an f-string, so an
unset device becomes the literal string "None". -/
def scanimageArgv (c : Config) : List String :=
  [ "scanimage",
    "-d", pyFormatOptStr c.sane_device,
    "--resolution", toString c.sane_resolution,
    "--brightness", toString c.sane_brightness,
    "--contrast", toString c.sane_contrast,
    "--mode", c.sane_mode,
    "--format", "tiff" ]

/-- List concatenation of the per-element event lists produced by a Python
`for` loop that appends as it iterates. -/
def concatMap (f : α → List β) : List α → List β
  | [] => []
  | a :: l => f a ++ concatMap f l

/-- Events of one iteration of the capture loop, scanner.py lines 103-128:
prompt, open the page file for writing, run scanimage with stdout redirected
into it, print a completion line. -/
def captureEvents (c : Config) (tempdir : String) (page : Nat) : List Event :=
  [ Event.promptInput ("Press Enter to scan page " ++ toString (page + 1)),
    Event.openWrite (pagePath tempdir page),
    Event.runCmd (scanimageArgv c),
    Event.printLine "\tDone!" ]

/-- Events of one iteration of the conversion loop, scanner.py lines 131-139:
tesseract on the page (output base without extension, mode "pdf") when OCR is
enabled, otherwise convert to the ".pdf" sibling. -/
def conversionEvents (no_ocr : Bool) (page : String) : List Event :=
  if no_ocr then [Event.runCmd ["convert", page, withSuffix page ".pdf"]]
  else [Event.runCmd ["tesseract", page, withSuffix page "", "pdf"]]

/-- page_list, scanner.py lines 103-127: the page files captured by the scan
loop, in page-index order.  `range` of a Python int iterates `pages.toNat`
times (zero times for zero or negative counts). -/
def page_list (c : Config) (tempdir : String) : List String :=
  (List.range c.pages.toNat).map (pagePath tempdir)

/-- pdf_list, scanner.py lines 131-139: the per-page PDFs appended by the
conversion loop, in capture order. -/
def pdf_list (c : Config) (tempdir : String) : List String :=
  (page_list c tempdir).map (fun p => withSuffix p ".pdf")

/-- gs_commands, scanner.py line 146: the full ghostscript argv. -/
def gsCommands (c : Config) (tempdir : String) : List String :=
  ["gs"] ++ GS_OPTIONS ++ ["-sOutputFile=" ++ pathJoin tempdir "final.pdf"]
    ++ pdf_list c tempdir

/-- The assembly step, scanner.py lines 141-148: with exactly one per-page PDF
that PDF itself becomes the final one and nothing runs; otherwise ghostscript
merges the list into final.pdf in the workspace (the program also prints the
argv first).  Returns the emitted events and the final PDF path. -/
def assembly (c : Config) (tempdir : String) : List Event × String :=
  if (pdf_list c tempdir).length = 1 then
    (([] : List Event), (pdf_list c tempdir).getD 0 "")
  else
    ([Event.printCmdList (gsCommands c tempdir),
      Event.runCmd (gsCommands c tempdir)],
     pathJoin tempdir "final.pdf")

/-- The publish step, scanner.py line 151: `shutil.copyfile` of the final PDF
to the final output path; when the environment makes the copy fail it raises
instead. -/
def publish (c : Config) (e : Env) (finalPdf : String) : List Event × Outcome :=
  if e.copyOk then
    ([Event.copyFile finalPdf (finalOutput c)], Outcome.returned)
  else (([] : List Event), Outcome.raisedCaught "copyfile failed")

/-- The body of `main`, scanner.py lines 85-151, as a trace of events plus how
the body ends.  The temporary directory context manager removes the directory
on both normal return and exception, so `rmTempDir` closes the trace either
way; a failing `shutil.copyfile` is the modeled exception source. -/
def mainBody (c : Config) (e : Env) : List Event × Outcome :=
  if e.fileExists (finalOutput c) then
    ([Event.logError ("Output pdf " ++ finalOutput c ++ " already exists")],
     Outcome.returned)
  else
    let tempdir := e.tempdirName
    let captureEvs := concatMap (captureEvents c tempdir)
      (List.range c.pages.toNat)
    let convEvs := concatMap (conversionEvents c.no_ocr) (page_list c tempdir)
    let asm := assembly c tempdir
    let pub := publish c e asm.2
    (Event.mkTempDir tempdir
       :: (captureEvs ++ convEvs ++ asm.1 ++ pub.1
            ++ [Event.rmTempDir tempdir]),
     pub.2)

/-- Log message loguru's `logger.catch` emits when the decorated function
raises (the model keeps the raised message as its context). -/
def caughtMsg (msg : String) : String :=
  "An error has been caught in function main: " ++ msg

/-- The whole process, scanner.py lines 57 and 154-155: the command check runs
at module import, before click parses anything; then click invokes `main`,
whose callback is wrapped by `@logger.catch`.  loguru's `catch` defaults to
`reraise=False`: it logs the exception and suppresses it, the callback returns
`None`, and click's standalone mode then exits the process with status 0.
Returns the event trace and the process exit status. -/
def runProgram (c : Config) (e : Env) : List Event × Nat :=
  match look_for_required_commands e with
  | (evs, some code) => (evs, code)
  | (evs, none) =>
    let r := mainBody c e
    match r.2 with
    | Outcome.returned => (evs ++ r.1, 0)
    | Outcome.raisedCaught msg =>
      (evs ++ r.1 ++ [Event.logError (caughtMsg msg)], 0)

/-- The same pipeline with the startup command check removed; used to state
that a passing check has no observable effect. -/
def runSansCheck (c : Config) (e : Env) : List Event × Nat :=
  let r := mainBody c e
  match r.2 with
  | Outcome.returned => (r.1, 0)
  | Outcome.raisedCaught msg => (r.1 ++ [Event.logError (caughtMsg msg)], 0)

/-- Selects subprocess invocations whose command name is `name`, keeping their
full argv. -/
def cmdSel (name : String) : Event → Option (List String)
  | Event.runCmd argv => if argv.headD "" = name then some argv else none
  | _ => none

/-- All invocations of the external program `name` in a trace, in order. -/
def cmdsNamed (name : String) (tr : List Event) : List (List String) :=
  tr.filterMap (cmdSel name)

/-- Selects `shutil.copyfile` calls, as (source, destination) pairs. -/
def copySel : Event → Option (String × String)
  | Event.copyFile s d => some (s, d)
  | _ => none

/-- All `shutil.copyfile` calls in a trace, as (source, destination) pairs. -/
def copyCalls (tr : List Event) : List (String × String) :=
  tr.filterMap copySel

/-- Selects the per-page PDF a conversion invocation produces: tesseract
writes its output base plus ".pdf", convert writes its explicit output
argument. -/
def convOutSel : Event → Option String
  | Event.runCmd argv =>
    match argv with
    | a :: rest =>
      if a = "tesseract" then
        match rest with
        | _ :: base :: _ => some (base ++ ".pdf")
        | _ => none
      else if a = "convert" then
        match rest with
        | _ :: out :: _ => some out
        | _ => none
      else none
    | [] => none
  | _ => none

/-- The per-page PDF files produced by the conversion loop, in invocation
order. -/
def convOutputs (tr : List Event) : List String :=
  tr.filterMap convOutSel

/-- Whether string `p` is a leading piece of string `s` (models Python
`str.startswith`). -/
def strHasPfx (p s : String) : Bool :=
  p.data.isPrefixOf s.data

/-- The first `n` characters of `s` removed. -/
def strDrop (s : String) (n : Nat) : String :=
  String.mk (s.data.drop n)

/-- Modelled from the spec, section 6 (External Interfaces): the file paths an
opaque external tool writes, read off its argv.  scanimage writes only to its
redirected standard output (counted by the `openWrite` event); tesseract
writes its output base plus ".pdf"; convert writes its last argument; gs
writes the path carried by its `-sOutputFile=` option. -/
def toolWrites (argv : List String) : List String :=
  match argv with
  | a :: rest =>
    if a = "tesseract" then
      match rest with
      | _ :: base :: _ => [base ++ ".pdf"]
      | _ => []
    else if a = "convert" then
      match rest with
      | _ :: out :: _ => [out]
      | _ => []
    else if a = "gs" then
      rest.filterMap fun x =>
        if strHasPfx "-sOutputFile=" x then some (strDrop x 13) else none
    else []
  | [] => []

/-- The file paths one event writes or creates. -/
def writesOf : Event → List String
  | Event.openWrite p => [p]
  | Event.copyFile _ dst => [dst]
  | Event.runCmd argv => toolWrites argv
  | _ => []

/-- All file paths a trace writes, in order. -/
def writes (tr : List Event) : List String :=
  concatMap writesOf tr

/-- Whether a path lies inside directory `dir` (its characters extend
`dir ++ "/"`). -/
def inDir (dir p : String) : Bool :=
  (dir ++ "/").data.isPrefixOf p.data

/-- The file paths a trace writes outside directory `dir`, in order. -/
def outsideWrites (dir : String) (tr : List Event) : List String :=
  (writes tr).filter (fun p => !(inDir dir p))

/-- Whether an event touches the file system at all (directory lifecycle,
opening a file for writing, spawning an external process, copying a file). -/
def isFSEvent : Event → Bool
  | Event.mkTempDir _ => true
  | Event.rmTempDir _ => true
  | Event.openWrite _ => true
  | Event.copyFile _ _ => true
  | Event.runCmd _ => true
  | _ => false

/-- Whether an event is a log line. -/
def isLogError : Event → Bool
  | Event.logError _ => true
  | _ => false

/-- A configuration like `scanner report -p 2` with flags otherwise left at
their click defaults, except for a fixed output directory. -/
def cfg0 : Config :=
  { sane_device := none, sane_resolution := 150, sane_brightness := 0,
    sane_contrast := 0, sane_mode := "Color", pages := 2,
    output_dir := "/out", no_ocr := false, filename := "report" }

/-- An environment with all four commands installed, no pre-existing files, a
fresh temporary directory and a working copy. -/
def env0 : Env :=
  { hasConvert := true, hasTesseract := true, hasScanimage := true,
    hasGs := true, fileExists := fun _ => false,
    tempdirName := "/tmp/scan", copyOk := true }

/-- Environment for the C1 witness: the output file already exists. -/
def envExisting : Env :=
  { env0 with fileExists := fun p => p == "/out/report.pdf" }

/-- Environment for the C2 witness: ghostscript missing. -/
def envNoGs : Env := { env0 with hasGs := false }

/-- Configuration for the single-page claims: one page, no OCR skip. -/
def cfg1 : Config := { cfg0 with pages := 1, filename := "scan.pdf" }

/-- Environment in which the publishing copy fails (for example the output
directory stopped being writable after the startup checks). -/
def envCopyFails : Env := { env0 with copyOk := false }

/-- Configuration for the exception-path runs. -/
def cfg5 : Config := { cfg0 with pages := 1 }

/-- Configuration with a zero page count, as accepted by `-p 0` (click's
`type=int` imposes no sign check). -/
def cfg6 : Config := { cfg0 with pages := 0 }

end Scanner

namespace Scanner


/-- Concatenation distributes over `concatMap`. -/
theorem concatMap_append (f : α → List β) (l m : List α) :
    concatMap f (l ++ m) = concatMap f l ++ concatMap f m := by
  induction l with
  | nil => rfl
  | cons a l ih => simp [concatMap, ih]

/-- A `filterMap` that rejects every event of every block of a `concatMap`
returns nothing. -/
theorem filterMap_concatMap_eq_nil {g : Event → Option β} {f : α → List Event}
    (l : List α) (H : ∀ a ∈ l, (f a).filterMap g = []) :
    (concatMap f l).filterMap g = [] := by
  induction l with
  | nil => rfl
  | cons a l ih =>
    rw [concatMap, List.filterMap_append, H a (List.mem_cons_self a l),
      ih (fun x hx => H x (List.mem_cons_of_mem a hx))]
    rfl

/-- A `filterMap` that keeps exactly one value per block of a `concatMap`
returns the per-block values in order. -/
theorem filterMap_concatMap_eq_map {g : Event → Option β} {f : α → List Event}
    {h : α → β} (l : List α) (H : ∀ a ∈ l, (f a).filterMap g = [h a]) :
    (concatMap f l).filterMap g = l.map h := by
  induction l with
  | nil => rfl
  | cons a l ih =>
    rw [concatMap, List.filterMap_append, H a (List.mem_cons_self a l),
      ih (fun x hx => H x (List.mem_cons_of_mem a hx)), List.map_cons,
      List.singleton_append]

theorem cmdSel_runCmd_self (n : String) (args : List String) :
    cmdSel n (Event.runCmd (n :: args)) = some (n :: args) := by
  simp [cmdSel]

theorem cmdSel_runCmd_ne (n a : String) (args : List String) (h : ¬ a = n) :
    cmdSel n (Event.runCmd (a :: args)) = none := by
  simp [cmdSel, h]

theorem filterMap_cmdSel_captureEvents (n : String) (h : ¬ "scanimage" = n)
    (c : Config) (d : String) (i : Nat) :
    (captureEvents c d i).filterMap (cmdSel n) = [] := by
  simp [captureEvents, scanimageArgv, cmdSel, h]

theorem filterMap_cmdSel_scanimage (c : Config) (d : String) (i : Nat) :
    (captureEvents c d i).filterMap (cmdSel "scanimage") = [scanimageArgv c] := by
  simp [captureEvents, scanimageArgv, cmdSel]

theorem filterMap_cmdSel_conversion (n : String) (ht : ¬ "tesseract" = n)
    (hc : ¬ "convert" = n) (b : Bool) (p : String) :
    (conversionEvents b p).filterMap (cmdSel n) = [] := by
  cases b <;>
    simp [conversionEvents, cmdSel_runCmd_ne n "tesseract" _ ht,
      cmdSel_runCmd_ne n "convert" _ hc]

theorem filterMap_cmdSel_publish (n : String) (c : Config) (e : Env)
    (fp : String) : ((publish c e fp).1).filterMap (cmdSel n) = [] := by
  unfold publish
  cases e.copyOk <;> simp [cmdSel]

/-- With all four commands found the startup check contributes nothing and the
process behaves like the pipeline alone. -/
theorem runProgram_allPresent (c : Config) (e : Env)
    (h1 : e.hasConvert = true) (h2 : e.hasTesseract = true)
    (h3 : e.hasScanimage = true) (h4 : e.hasGs = true) :
    runProgram c e = runSansCheck c e := by
  unfold runProgram runSansCheck look_for_required_commands
  rw [h1, h2, h3, h4]
  cases hmb : (mainBody c e).2 <;> simp [hmb]

/-- A `filterMap` blind to log lines sees through the whole process to the
body of `main`. -/
theorem filterMap_runProgram (g : Event → Option β)
    (hg : ∀ m, g (Event.logError m) = none) (c : Config) (e : Env)
    (h1 : e.hasConvert = true) (h2 : e.hasTesseract = true)
    (h3 : e.hasScanimage = true) (h4 : e.hasGs = true) :
    (runProgram c e).1.filterMap g = (mainBody c e).1.filterMap g := by
  rw [runProgram_allPresent c e h1 h2 h3 h4]
  unfold runSansCheck
  cases hmb : (mainBody c e).2 <;> simp [hmb, List.filterMap_append, hg]

theorem mainBody_fst (c : Config) (e : Env)
    (hfe : e.fileExists (finalOutput c) = false) :
    (mainBody c e).1 =
      Event.mkTempDir e.tempdirName
        :: (concatMap (captureEvents c e.tempdirName)
              (List.range c.pages.toNat)
            ++ concatMap (conversionEvents c.no_ocr) (page_list c e.tempdirName)
            ++ (assembly c e.tempdirName).1
            ++ (publish c e (assembly c e.tempdirName).2).1
            ++ [Event.rmTempDir e.tempdirName]) := by
  simp [mainBody, hfe]

theorem pdf_list_length (c : Config) (d : String) :
    (pdf_list c d).length = c.pages.toNat := by
  simp [pdf_list, page_list]

theorem assembly_one (c : Config) (d : String) (h : c.pages.toNat = 1) :
    assembly c d = (([] : List Event), withSuffix (pagePath d 0) ".pdf") := by
  have hr : List.range c.pages.toNat = [0] := by rw [h]; rfl
  rw [assembly, if_pos]
  · simp [pdf_list, page_list, hr]
  · rw [pdf_list_length, h]

theorem assembly_many (c : Config) (d : String) (h : ¬ c.pages.toNat = 1) :
    assembly c d =
      ([Event.printCmdList (gsCommands c d), Event.runCmd (gsCommands c d)],
       pathJoin d "final.pdf") := by
  rw [assembly, if_neg]
  rw [pdf_list_length]
  exact h

theorem str_mk_data (s : String) : String.mk s.data = s := rfl

theorem pathJoin_eq (d f : String) (hd1 : ¬ d = ".")
    (hd2 : pyEndsWith d "/" = false) :
    pathJoin d f = d ++ "/" ++ f := by
  simp [pathJoin, hd1, hd2]

theorem inDir_append (d r : String) : inDir d (d ++ "/" ++ r) = true := by
  unfold inDir
  rw [String.data_append]
  exact List.isPrefixOf_iff_prefix.mpr (List.prefix_append _ _)

theorem splitAtLastDot_tiff (r : List Char) :
    splitAtLastDot ('f' :: 'f' :: 'i' :: 't' :: '.' :: r) = some r := by
  simp [splitAtLastDot]

theorem withSuffix_tiff (s suf : String) :
    withSuffix (s ++ ".tiff") suf = s ++ suf := by
  unfold withSuffix
  have h : (s ++ ".tiff").data.reverse
      = 'f' :: 'f' :: 'i' :: 't' :: '.' :: s.data.reverse := by
    rw [String.data_append, List.reverse_append]
    rfl
  rw [h, splitAtLastDot_tiff]
  simp [List.reverse_reverse, str_mk_data]

theorem withSuffix_empty_pdf (p : String) :
    withSuffix p "" ++ ".pdf" = withSuffix p ".pdf" := by
  unfold withSuffix
  cases h : splitAtLastDot p.data.reverse <;>
    simp [String.append_empty, String.append_assoc]

theorem withSuffix_pagePath (d : String) (i : Nat) (hd1 : ¬ d = ".")
    (hd2 : pyEndsWith d "/" = false) :
    withSuffix (pagePath d i) ".pdf"
      = d ++ "/" ++ ("page_" ++ toString i ++ ".pdf") := by
  rw [pagePath, pathJoin_eq d _ hd1 hd2, ← String.append_assoc,
    withSuffix_tiff, String.append_assoc]

theorem inDir_pagePath (d : String) (i : Nat) (hd1 : ¬ d = ".")
    (hd2 : pyEndsWith d "/" = false) :
    inDir d (pagePath d i) = true := by
  rw [pagePath, pathJoin_eq d _ hd1 hd2]
  exact inDir_append _ _

theorem inDir_withSuffix_pagePath (d : String) (i : Nat) (hd1 : ¬ d = ".")
    (hd2 : pyEndsWith d "/" = false) :
    inDir d (withSuffix (pagePath d i) ".pdf") = true := by
  rw [withSuffix_pagePath d i hd1 hd2]
  exact inDir_append _ _

theorem inDir_finalPdf (d : String) (hd1 : ¬ d = ".")
    (hd2 : pyEndsWith d "/" = false) :
    inDir d (pathJoin d "final.pdf") = true := by
  rw [pathJoin_eq d _ hd1 hd2]
  exact inDir_append _ _

theorem strHasPfx_append (p r : String) : strHasPfx p (p ++ r) = true := by
  unfold strHasPfx
  rw [String.data_append]
  exact List.isPrefixOf_iff_prefix.mpr (List.prefix_append _ _)

theorem strDrop_sOutputFile (fp : String) :
    strDrop ("-sOutputFile=" ++ fp) 13 = fp := by
  unfold strDrop
  rw [String.data_append]
  have h : ("-sOutputFile=").data.length = 13 := rfl
  rw [← h, List.drop_left]

theorem strHasPfx_dash_slash (d r : String) (hd : strHasPfx "-" d = false) :
    strHasPfx "-sOutputFile=" (d ++ "/" ++ r) = false := by
  unfold strHasPfx at hd ⊢
  rw [String.data_append, String.data_append]
  cases hdl : d.data with
  | nil => simp [List.isPrefixOf]
  | cons ch rest =>
    rw [hdl] at hd
    simp [List.isPrefixOf] at hd ⊢
    intro hc
    exact absurd hc hd

theorem writes_append (l m : List Event) :
    writes (l ++ m) = writes l ++ writes m :=
  concatMap_append _ _ _

theorem writes_concatMap (f : α → List Event) (l : List α) :
    writes (concatMap f l) = concatMap (fun a => writes (f a)) l := by
  induction l with
  | nil => rfl
  | cons a l ih =>
    rw [concatMap, writes_append, ih]
    rfl

theorem writes_captureEvents (c : Config) (d : String) (i : Nat) :
    writes (captureEvents c d i) = [pagePath d i] := rfl

theorem writes_conversionEvents (b : Bool) (p : String) :
    writes (conversionEvents b p) = [withSuffix p ".pdf"] := by
  cases b <;>
    simp [conversionEvents, writes, concatMap, writesOf, toolWrites,
      withSuffix_empty_pdf]

theorem toolWrites_gs (args : List String) :
    toolWrites ("gs" :: args)
      = args.filterMap
          (fun x => if strHasPfx "-sOutputFile=" x then some (strDrop x 13)
                    else none) := by
  simp [toolWrites]

theorem gsCommands_cons (c : Config) (d : String) :
    gsCommands c d
      = "gs" :: (GS_OPTIONS
          ++ (["-sOutputFile=" ++ pathJoin d "final.pdf"] ++ pdf_list c d)) := by
  simp [gsCommands]

theorem writes_gsCommand (c : Config) (d : String) (hd1 : ¬ d = ".")
    (hd2 : pyEndsWith d "/" = false) (hd3 : strHasPfx "-" d = false) :
    toolWrites (gsCommands c d) = [pathJoin d "final.pdf"] := by
  rw [gsCommands_cons, toolWrites_gs, List.filterMap_append,
    List.filterMap_append]
  have hopts : GS_OPTIONS.filterMap
      (fun x => if strHasPfx "-sOutputFile=" x then some (strDrop x 13)
                else none) = [] := rfl
  have hout : ([("-sOutputFile=" ++ pathJoin d "final.pdf")]).filterMap
      (fun x => if strHasPfx "-sOutputFile=" x then some (strDrop x 13)
                else none) = [pathJoin d "final.pdf"] := by
    simp [strHasPfx_append, strDrop_sOutputFile]
  have hpdfs : (pdf_list c d).filterMap
      (fun x => if strHasPfx "-sOutputFile=" x then some (strDrop x 13)
                else none) = [] := by
    rw [List.filterMap_eq_nil_iff]
    intro x hx
    rw [pdf_list, page_list, List.map_map] at hx
    obtain ⟨i, hi, hix⟩ := List.mem_map.mp hx
    have hxe : x = withSuffix (pagePath d i) ".pdf" := hix.symm
    rw [hxe, withSuffix_pagePath d i hd1 hd2, strHasPfx_dash_slash _ _ hd3]
    rfl
  rw [hopts, hout, hpdfs]
  rfl

theorem pyEndsWith_append_self (s p : String) :
    pyEndsWith (s ++ p) p = true := by
  unfold pyEndsWith
  rw [String.data_append]
  exact List.isSuffixOf_iff_suffix.mpr (List.suffix_append _ _)

/-- Claim C7: filename normalization appends ".pdf" exactly once when absent
and leaves a filename already ending in ".pdf" unchanged; the result always
ends in ".pdf". -/
theorem scanner_C7 (filename : String) :
    (pyEndsWith filename ".pdf" = false →
      normalizeFilename filename = filename ++ ".pdf")
    ∧ (pyEndsWith filename ".pdf" = true →
      normalizeFilename filename = filename)
    ∧ pyEndsWith (normalizeFilename filename) ".pdf" = true := by
  refine ⟨fun h => by simp [normalizeFilename, h],
    fun h => by simp [normalizeFilename, h], ?_⟩
  by_cases h : pyEndsWith filename ".pdf" = true
  · simp [normalizeFilename, h]
  · have h' : pyEndsWith filename ".pdf" = false := by
      simpa using h
    simp only [normalizeFilename, h', Bool.false_eq_true, if_false]
    exact pyEndsWith_append_self filename ".pdf"

theorem scanner_C7_witness :
    normalizeFilename "report" = "report" ++ ".pdf"
    ∧ normalizeFilename "scan.pdf" = "scan.pdf" :=
  ⟨(scanner_C7 "report").1 (by decide), (scanner_C7 "scan.pdf").2.1 (by decide)⟩

/-- Claim C1: when a file already exists at the computed final output path,
the run reports one error naming that path and stops: the whole trace is that
single log line, so no temporary directory is created, no command runs, and
nothing is written. -/
theorem scanner_C1 (c : Config) (e : Env)
    (h1 : e.hasConvert = true) (h2 : e.hasTesseract = true)
    (h3 : e.hasScanimage = true) (h4 : e.hasGs = true)
    (hfe : e.fileExists (finalOutput c) = true) :
    runProgram c e
      = ([Event.logError ("Output pdf " ++ finalOutput c ++ " already exists")],
         0)
    ∧ (runProgram c e).1.countP isFSEvent = 0
    ∧ writes (runProgram c e).1 = [] := by
  have hmb : mainBody c e
      = ([Event.logError ("Output pdf " ++ finalOutput c ++ " already exists")],
         Outcome.returned) := by
    simp [mainBody, hfe]
  have hrp : runProgram c e
      = ([Event.logError ("Output pdf " ++ finalOutput c ++ " already exists")],
         0) := by
    rw [runProgram_allPresent c e h1 h2 h3 h4]
    simp [runSansCheck, hmb]
  refine ⟨hrp, ?_, ?_⟩ <;> rw [hrp] <;> rfl

theorem scanner_C1_witness :
    runProgram cfg0 envExisting
      = ([Event.logError
            ("Output pdf " ++ finalOutput cfg0 ++ " already exists")], 0)
    ∧ (runProgram cfg0 envExisting).1.countP isFSEvent = 0
    ∧ writes (runProgram cfg0 envExisting).1 = [] :=
  scanner_C1 cfg0 envExisting rfl rfl rfl rfl (by decide)

/-- Claim C2: with any of the four required programs missing, the process logs
one error line per missing program and exits with status 1 before doing
anything else - no temp directory, no subprocess, no write; with all four
present the check changes nothing observable. -/
theorem scanner_C2 (c : Config) (e : Env) :
    ((e.hasConvert && e.hasTesseract && e.hasScanimage && e.hasGs) = false →
      (runProgram c e).2 = 1
      ∧ ((Event.logError convertMissingMsg ∈ (runProgram c e).1)
          ↔ e.hasConvert = false)
      ∧ ((Event.logError tesseractMissingMsg ∈ (runProgram c e).1)
          ↔ e.hasTesseract = false)
      ∧ ((Event.logError scanimageMissingMsg ∈ (runProgram c e).1)
          ↔ e.hasScanimage = false)
      ∧ ((Event.logError gsMissingMsg ∈ (runProgram c e).1)
          ↔ e.hasGs = false)
      ∧ (runProgram c e).1.countP isLogError
          = (cond e.hasConvert 0 1) + (cond e.hasTesseract 0 1)
            + (cond e.hasScanimage 0 1) + (cond e.hasGs 0 1)
      ∧ (runProgram c e).1.countP isFSEvent = 0
      ∧ writes (runProgram c e).1 = [])
    ∧ ((e.hasConvert && e.hasTesseract && e.hasScanimage && e.hasGs) = true →
      runProgram c e = runSansCheck c e) := by
  obtain ⟨hc, ht, hs, hg, fe, td, ck⟩ := e
  constructor
  · cases hc <;> cases ht <;> cases hs <;> cases hg <;> intro h <;>
      first
        | exact of_decide_eq_true rfl
        | simp at h
  · intro h
    simp only [Bool.and_eq_true] at h
    exact runProgram_allPresent c _ h.1.1.1 h.1.1.2 h.1.2 h.2

theorem scanner_C2_witness :
    (runProgram cfg0 envNoGs).2 = 1
    ∧ ((Event.logError convertMissingMsg ∈ (runProgram cfg0 envNoGs).1)
        ↔ envNoGs.hasConvert = false)
    ∧ ((Event.logError tesseractMissingMsg ∈ (runProgram cfg0 envNoGs).1)
        ↔ envNoGs.hasTesseract = false)
    ∧ ((Event.logError scanimageMissingMsg ∈ (runProgram cfg0 envNoGs).1)
        ↔ envNoGs.hasScanimage = false)
    ∧ ((Event.logError gsMissingMsg ∈ (runProgram cfg0 envNoGs).1)
        ↔ envNoGs.hasGs = false)
    ∧ (runProgram cfg0 envNoGs).1.countP isLogError
        = (cond envNoGs.hasConvert 0 1) + (cond envNoGs.hasTesseract 0 1)
          + (cond envNoGs.hasScanimage 0 1) + (cond envNoGs.hasGs 0 1)
    ∧ (runProgram cfg0 envNoGs).1.countP isFSEvent = 0
    ∧ writes (runProgram cfg0 envNoGs).1 = [] :=
  (scanner_C2 cfg0 envNoGs).1 (by decide)

theorem filterMap_assembly_one {β : Type} (g : Event → Option β) (c : Config)
    (d : String) (h : c.pages.toNat = 1) :
    ((assembly c d).1).filterMap g = [] := by
  rw [assembly_one c d h]
  rfl

theorem filterMap_cmdSel_assembly_ne (n : String) (hgs : ¬ "gs" = n)
    (c : Config) (d : String) :
    ((assembly c d).1).filterMap (cmdSel n) = [] := by
  by_cases h : c.pages.toNat = 1
  · exact filterMap_assembly_one _ c d h
  · rw [assembly_many c d h, gsCommands_cons]
    simp [cmdSel_runCmd_ne, hgs, cmdSel]

theorem filterMap_cmdSel_assembly_gs (c : Config) (d : String)
    (h : ¬ c.pages.toNat = 1) :
    ((assembly c d).1).filterMap (cmdSel "gs") = [gsCommands c d] := by
  rw [assembly_many c d h]
  rw [List.filterMap_cons, List.filterMap_cons]
  rw [show cmdSel "gs" (Event.printCmdList (gsCommands c d)) = none from rfl]
  rw [gsCommands_cons, cmdSel_runCmd_self]
  rfl

/-- Claim C3: with more than one page, ghostscript is invoked exactly once,
with the fixed GS_OPTIONS, an output file inside the workspace, and the N
per-page PDFs as inputs in capture order 0..N-1. -/
theorem scanner_C3 (c : Config) (e : Env)
    (h1 : e.hasConvert = true) (h2 : e.hasTesseract = true)
    (h3 : e.hasScanimage = true) (h4 : e.hasGs = true)
    (hfe : e.fileExists (finalOutput c) = false)
    (hp : 1 < c.pages) :
    cmdsNamed "gs" (runProgram c e).1 = [gsCommands c e.tempdirName]
    ∧ gsCommands c e.tempdirName
        = ["gs"] ++ GS_OPTIONS
          ++ ["-sOutputFile=" ++ pathJoin e.tempdirName "final.pdf"]
          ++ (List.range c.pages.toNat).map
              (fun i => withSuffix (pagePath e.tempdirName i) ".pdf")
    ∧ ((List.range c.pages.toNat).map
        (fun i => withSuffix (pagePath e.tempdirName i) ".pdf")).length
        = c.pages.toNat := by
  have hN : ¬ c.pages.toNat = 1 := by omega
  refine ⟨?_, ?_, by simp⟩
  · rw [cmdsNamed, filterMap_runProgram _ (fun m => rfl) c e h1 h2 h3 h4,
      mainBody_fst c e hfe, List.filterMap_cons,
      show cmdSel "gs" (Event.mkTempDir e.tempdirName) = none from rfl,
      List.filterMap_append, List.filterMap_append, List.filterMap_append,
      List.filterMap_append,
      filterMap_concatMap_eq_nil _
        (fun i _ => filterMap_cmdSel_captureEvents "gs" (by decide) c
          e.tempdirName i),
      filterMap_concatMap_eq_nil _
        (fun p _ => filterMap_cmdSel_conversion "gs" (by decide) (by decide)
          c.no_ocr p),
      filterMap_cmdSel_assembly_gs c e.tempdirName hN,
      filterMap_cmdSel_publish "gs" c e _]
    rfl
  · simp [gsCommands, pdf_list, page_list, List.map_map]

theorem scanner_C3_witness :
    (1 : Int) < cfg0.pages
    ∧ cmdsNamed "gs" (runProgram cfg0 env0).1 = [gsCommands cfg0 env0.tempdirName]
    ∧ gsCommands cfg0 env0.tempdirName
        = ["gs"] ++ GS_OPTIONS
          ++ ["-sOutputFile=" ++ pathJoin env0.tempdirName "final.pdf"]
          ++ (List.range cfg0.pages.toNat).map
              (fun i => withSuffix (pagePath env0.tempdirName i) ".pdf")
    ∧ ((List.range cfg0.pages.toNat).map
        (fun i => withSuffix (pagePath env0.tempdirName i) ".pdf")).length
        = cfg0.pages.toNat :=
  ⟨by decide, scanner_C3 cfg0 env0 rfl rfl rfl rfl rfl (by decide)⟩

theorem filterMap_copySel_captureEvents (c : Config) (d : String) (i : Nat) :
    (captureEvents c d i).filterMap copySel = [] := rfl

theorem filterMap_copySel_conversion (b : Bool) (p : String) :
    (conversionEvents b p).filterMap copySel = [] := by
  cases b <;> rfl

theorem filterMap_copySel_assembly (c : Config) (d : String) :
    ((assembly c d).1).filterMap copySel = [] := by
  by_cases h : c.pages.toNat = 1
  · exact filterMap_assembly_one _ c d h
  · rw [assembly_many c d h]
    rfl

/-- Claim C4: with exactly one page ghostscript never runs and the published
file is a direct copy of the single page's converted PDF. -/
theorem scanner_C4 (c : Config) (e : Env)
    (h1 : e.hasConvert = true) (h2 : e.hasTesseract = true)
    (h3 : e.hasScanimage = true) (h4 : e.hasGs = true)
    (hfe : e.fileExists (finalOutput c) = false)
    (hp : c.pages = 1) (hck : e.copyOk = true) :
    cmdsNamed "gs" (runProgram c e).1 = []
    ∧ copyCalls (runProgram c e).1
        = [(withSuffix (pagePath e.tempdirName 0) ".pdf", finalOutput c)] := by
  have hN : c.pages.toNat = 1 := by rw [hp]; rfl
  constructor
  · rw [cmdsNamed, filterMap_runProgram _ (fun m => rfl) c e h1 h2 h3 h4,
      mainBody_fst c e hfe, List.filterMap_cons,
      show cmdSel "gs" (Event.mkTempDir e.tempdirName) = none from rfl,
      List.filterMap_append, List.filterMap_append, List.filterMap_append,
      List.filterMap_append,
      filterMap_concatMap_eq_nil _
        (fun i _ => filterMap_cmdSel_captureEvents "gs" (by decide) c
          e.tempdirName i),
      filterMap_concatMap_eq_nil _
        (fun p _ => filterMap_cmdSel_conversion "gs" (by decide) (by decide)
          c.no_ocr p),
      filterMap_assembly_one _ c e.tempdirName hN,
      filterMap_cmdSel_publish "gs" c e _]
    rfl
  · rw [copyCalls, filterMap_runProgram _ (fun m => rfl) c e h1 h2 h3 h4,
      mainBody_fst c e hfe, List.filterMap_cons,
      show copySel (Event.mkTempDir e.tempdirName) = none from rfl,
      List.filterMap_append, List.filterMap_append, List.filterMap_append,
      List.filterMap_append,
      filterMap_concatMap_eq_nil _
        (fun i _ => filterMap_copySel_captureEvents c e.tempdirName i),
      filterMap_concatMap_eq_nil _
        (fun p _ => filterMap_copySel_conversion c.no_ocr p),
      filterMap_copySel_assembly c e.tempdirName,
      assembly_one c e.tempdirName hN]
    simp only [publish, hck, if_true]
    rfl

theorem scanner_C4_witness :
    cfg1.pages = 1
    ∧ cmdsNamed "gs" (runProgram cfg1 env0).1 = []
    ∧ copyCalls (runProgram cfg1 env0).1
        = [(withSuffix (pagePath env0.tempdirName 0) ".pdf", finalOutput cfg1)] :=
  ⟨rfl, scanner_C4 cfg1 env0 rfl rfl rfl rfl rfl rfl rfl⟩

theorem filterMap_publish {β : Type} (g : Event → Option β)
    (hg : ∀ s t, g (Event.copyFile s t) = none) (c : Config) (e : Env)
    (fp : String) : ((publish c e fp).1).filterMap g = [] := by
  unfold publish
  cases e.copyOk <;> simp [hg]

theorem filterMap_mainBody {β : Type} (g : Event → Option β) (c : Config)
    (e : Env) (hfe : e.fileExists (finalOutput c) = false)
    (hmk : g (Event.mkTempDir e.tempdirName) = none)
    (hrm : g (Event.rmTempDir e.tempdirName) = none) :
    (mainBody c e).1.filterMap g
      = (concatMap (captureEvents c e.tempdirName)
          (List.range c.pages.toNat)).filterMap g
        ++ (concatMap (conversionEvents c.no_ocr)
            (page_list c e.tempdirName)).filterMap g
        ++ ((assembly c e.tempdirName).1).filterMap g
        ++ ((publish c e (assembly c e.tempdirName).2).1).filterMap g := by
  rw [mainBody_fst c e hfe, List.filterMap_cons, hmk, List.filterMap_append,
    List.filterMap_append, List.filterMap_append, List.filterMap_append]
  simp [hrm]

theorem filterMap_cmdSel_conversion_false (n : String)
    (ht : ¬ "tesseract" = n) (p : String) :
    (conversionEvents false p).filterMap (cmdSel n) = [] := by
  simp [conversionEvents, cmdSel_runCmd_ne, ht, cmdSel]

theorem filterMap_cmdSel_conversion_true (n : String)
    (hc : ¬ "convert" = n) (p : String) :
    (conversionEvents true p).filterMap (cmdSel n) = [] := by
  simp [conversionEvents, cmdSel_runCmd_ne, hc, cmdSel]

theorem filterMap_cmdSel_tesseract (p : String) :
    (conversionEvents false p).filterMap (cmdSel "tesseract")
      = [["tesseract", p, withSuffix p "", "pdf"]] := by
  simp [conversionEvents, cmdSel]

theorem filterMap_cmdSel_convert (p : String) :
    (conversionEvents true p).filterMap (cmdSel "convert")
      = [["convert", p, withSuffix p ".pdf"]] := by
  simp [conversionEvents, cmdSel]

theorem convOutSel_other (a : String) (rest : List String)
    (ht : ¬ a = "tesseract") (hc : ¬ a = "convert") :
    convOutSel (Event.runCmd (a :: rest)) = none := by
  simp [convOutSel, ht, hc]

theorem filterMap_convOutSel_capture (c : Config) (d : String) (i : Nat) :
    (captureEvents c d i).filterMap convOutSel = [] := by
  simp [captureEvents, scanimageArgv, convOutSel]

theorem filterMap_convOutSel_conversion (b : Bool) (p : String) :
    (conversionEvents b p).filterMap convOutSel = [withSuffix p ".pdf"] := by
  cases b <;> simp [conversionEvents, convOutSel, withSuffix_empty_pdf]

theorem filterMap_convOutSel_assembly (c : Config) (d : String) :
    ((assembly c d).1).filterMap convOutSel = [] := by
  by_cases h : c.pages.toNat = 1
  · exact filterMap_assembly_one _ c d h
  · rw [assembly_many c d h, gsCommands_cons]
    simp [convOutSel]

/-- Claim C8: per captured page exactly one conversion tool runs - tesseract
when OCR is on, convert when it is off, never the other - and the per-page
PDFs (the page path with extension replaced by ".pdf") are produced in
capture order. -/
theorem scanner_C8 (c : Config) (e : Env)
    (h1 : e.hasConvert = true) (h2 : e.hasTesseract = true)
    (h3 : e.hasScanimage = true) (h4 : e.hasGs = true)
    (hfe : e.fileExists (finalOutput c) = false) :
    (c.no_ocr = false →
      cmdsNamed "tesseract" (runProgram c e).1
        = (List.range c.pages.toNat).map
            (fun i => ["tesseract", pagePath e.tempdirName i,
              withSuffix (pagePath e.tempdirName i) "", "pdf"])
      ∧ cmdsNamed "convert" (runProgram c e).1 = [])
    ∧ (c.no_ocr = true →
      cmdsNamed "convert" (runProgram c e).1
        = (List.range c.pages.toNat).map
            (fun i => ["convert", pagePath e.tempdirName i,
              withSuffix (pagePath e.tempdirName i) ".pdf"])
      ∧ cmdsNamed "tesseract" (runProgram c e).1 = [])
    ∧ convOutputs (runProgram c e).1
        = (List.range c.pages.toNat).map
            (fun i => withSuffix (pagePath e.tempdirName i) ".pdf") := by
  refine ⟨fun hb => ⟨?_, ?_⟩, fun hb => ⟨?_, ?_⟩, ?_⟩
  · rw [cmdsNamed, filterMap_runProgram _ (fun m => rfl) c e h1 h2 h3 h4,
      filterMap_mainBody _ c e hfe rfl rfl,
      filterMap_concatMap_eq_nil _
        (fun i _ => filterMap_cmdSel_captureEvents "tesseract" (by decide) c
          e.tempdirName i),
      hb,
      filterMap_concatMap_eq_map _
        (fun p _ => filterMap_cmdSel_tesseract p),
      filterMap_cmdSel_assembly_ne "tesseract" (by decide) c e.tempdirName,
      filterMap_publish _ (fun s t => rfl) c e _,
      page_list, List.map_map]
    simp [Function.comp]
  · rw [cmdsNamed, filterMap_runProgram _ (fun m => rfl) c e h1 h2 h3 h4,
      filterMap_mainBody _ c e hfe rfl rfl,
      filterMap_concatMap_eq_nil _
        (fun i _ => filterMap_cmdSel_captureEvents "convert" (by decide) c
          e.tempdirName i),
      hb,
      filterMap_concatMap_eq_nil _
        (fun p _ => filterMap_cmdSel_conversion_false "convert" (by decide) p),
      filterMap_cmdSel_assembly_ne "convert" (by decide) c e.tempdirName,
      filterMap_publish _ (fun s t => rfl) c e _]
    rfl
  · rw [cmdsNamed, filterMap_runProgram _ (fun m => rfl) c e h1 h2 h3 h4,
      filterMap_mainBody _ c e hfe rfl rfl,
      filterMap_concatMap_eq_nil _
        (fun i _ => filterMap_cmdSel_captureEvents "convert" (by decide) c
          e.tempdirName i),
      hb,
      filterMap_concatMap_eq_map _
        (fun p _ => filterMap_cmdSel_convert p),
      filterMap_cmdSel_assembly_ne "convert" (by decide) c e.tempdirName,
      filterMap_publish _ (fun s t => rfl) c e _,
      page_list, List.map_map]
    simp [Function.comp]
  · rw [cmdsNamed, filterMap_runProgram _ (fun m => rfl) c e h1 h2 h3 h4,
      filterMap_mainBody _ c e hfe rfl rfl,
      filterMap_concatMap_eq_nil _
        (fun i _ => filterMap_cmdSel_captureEvents "tesseract" (by decide) c
          e.tempdirName i),
      hb,
      filterMap_concatMap_eq_nil _
        (fun p _ => filterMap_cmdSel_conversion_true "tesseract" (by decide) p),
      filterMap_cmdSel_assembly_ne "tesseract" (by decide) c e.tempdirName,
      filterMap_publish _ (fun s t => rfl) c e _]
    rfl
  · rw [convOutputs, filterMap_runProgram _ (fun m => rfl) c e h1 h2 h3 h4,
      filterMap_mainBody _ c e hfe rfl rfl,
      filterMap_concatMap_eq_nil _
        (fun i _ => filterMap_convOutSel_capture c e.tempdirName i),
      filterMap_concatMap_eq_map _
        (fun p _ => filterMap_convOutSel_conversion c.no_ocr p),
      filterMap_convOutSel_assembly c e.tempdirName,
      filterMap_publish _ (fun s t => rfl) c e _,
      page_list, List.map_map]
    simp [Function.comp]

theorem scanner_C8_witness :
    cfg0.no_ocr = false
    ∧ (cmdsNamed "tesseract" (runProgram cfg0 env0).1
        = (List.range cfg0.pages.toNat).map
            (fun i => ["tesseract", pagePath env0.tempdirName i,
              withSuffix (pagePath env0.tempdirName i) "", "pdf"])
       ∧ cmdsNamed "convert" (runProgram cfg0 env0).1 = [])
    ∧ convOutputs (runProgram cfg0 env0).1
        = (List.range cfg0.pages.toNat).map
            (fun i => withSuffix (pagePath env0.tempdirName i) ".pdf") :=
  ⟨rfl, (scanner_C8 cfg0 env0 rfl rfl rfl rfl rfl).1 rfl,
    (scanner_C8 cfg0 env0 rfl rfl rfl rfl rfl).2.2⟩

/-- Claim C10: with no scanner device configured, every capture invocation of
scanimage carries the device flag with the literal string "None" (Python's
rendering of the absent option), one invocation per page. -/
theorem scanner_C10 (c : Config) (e : Env)
    (h1 : e.hasConvert = true) (h2 : e.hasTesseract = true)
    (h3 : e.hasScanimage = true) (h4 : e.hasGs = true)
    (hfe : e.fileExists (finalOutput c) = false)
    (hdev : c.sane_device = none) (hp : 0 < c.pages) :
    cmdsNamed "scanimage" (runProgram c e).1
      = List.replicate c.pages.toNat (scanimageArgv c)
    ∧ scanimageArgv c
        = ["scanimage", "-d", "None",
           "--resolution", toString c.sane_resolution,
           "--brightness", toString c.sane_brightness,
           "--contrast", toString c.sane_contrast,
           "--mode", c.sane_mode,
           "--format", "tiff"]
    ∧ 0 < c.pages.toNat := by
  refine ⟨?_, by simp [scanimageArgv, hdev, pyFormatOptStr], by omega⟩
  rw [cmdsNamed, filterMap_runProgram _ (fun m => rfl) c e h1 h2 h3 h4,
    filterMap_mainBody _ c e hfe rfl rfl,
    filterMap_concatMap_eq_map _
      (fun i _ => filterMap_cmdSel_scanimage c e.tempdirName i),
    filterMap_concatMap_eq_nil _
      (fun p _ => filterMap_cmdSel_conversion "scanimage" (by decide)
        (by decide) c.no_ocr p),
    filterMap_cmdSel_assembly_ne "scanimage" (by decide) c e.tempdirName,
    filterMap_publish _ (fun s t => rfl) c e _]
  simp [List.map_const']

theorem scanner_C10_witness :
    cfg0.sane_device = none
    ∧ (0 : Int) < cfg0.pages
    ∧ cmdsNamed "scanimage" (runProgram cfg0 env0).1
        = List.replicate cfg0.pages.toNat (scanimageArgv cfg0)
    ∧ scanimageArgv cfg0
        = ["scanimage", "-d", "None",
           "--resolution", toString cfg0.sane_resolution,
           "--brightness", toString cfg0.sane_brightness,
           "--contrast", toString cfg0.sane_contrast,
           "--mode", cfg0.sane_mode,
           "--format", "tiff"]
    ∧ 0 < cfg0.pages.toNat :=
  ⟨rfl, by decide,
    (scanner_C10 cfg0 env0 rfl rfl rfl rfl rfl rfl (by decide)).1,
    (scanner_C10 cfg0 env0 rfl rfl rfl rfl rfl rfl (by decide)).2.1,
    (scanner_C10 cfg0 env0 rfl rfl rfl rfl rfl rfl (by decide)).2.2⟩

/-- Claim C5 counterexample: a run whose body raises (the publish copy fails)
is caught and logged, but the process exit status is 0, not non-zero:
loguru's `logger.catch` suppresses the exception by default and click then
exits the process with status 0. -/
theorem scanner_C5_counterexample :
    (mainBody cfg5 envCopyFails).2 = Outcome.raisedCaught "copyfile failed"
    ∧ (runProgram cfg5 envCopyFails).2 = 0
    ∧ Event.logError (caughtMsg "copyfile failed")
        ∈ (runProgram cfg5 envCopyFails).1 := by
  refine ⟨rfl, rfl, ?_⟩
  exact of_decide_eq_true rfl

/-- Claim C5 (amended): an exception raised inside the body of `main` is
caught at the top level and logged with context, after the temporary
workspace is removed; the decorated function then returns normally, so the
process exits with status 0 (success), not a failure status. -/
theorem scanner_C5 (c : Config) (e : Env) (msg : String)
    (h1 : e.hasConvert = true) (h2 : e.hasTesseract = true)
    (h3 : e.hasScanimage = true) (h4 : e.hasGs = true)
    (hr : (mainBody c e).2 = Outcome.raisedCaught msg) :
    (runProgram c e).1
      = (mainBody c e).1 ++ [Event.logError (caughtMsg msg)]
    ∧ (runProgram c e).2 = 0 := by
  rw [runProgram_allPresent c e h1 h2 h3 h4]
  simp only [runSansCheck, hr]
  exact ⟨trivial, trivial⟩

theorem scanner_C5_witness :
    (mainBody cfg5 envCopyFails).2 = Outcome.raisedCaught "copyfile failed"
    ∧ (runProgram cfg5 envCopyFails).1
        = (mainBody cfg5 envCopyFails).1
          ++ [Event.logError (caughtMsg "copyfile failed")]
    ∧ (runProgram cfg5 envCopyFails).2 = 0 :=
  ⟨rfl, scanner_C5 cfg5 envCopyFails "copyfile failed" rfl rfl rfl rfl rfl⟩

/-- Claim C6 evaluated at the failing input `pages = 0`: the run is NOT
rejected before the capture loop - the temporary directory is created, the
capture loop runs zero times, and ghostscript is invoked with zero input
PDFs. -/
theorem scanner_C6 :
    Event.mkTempDir env0.tempdirName ∈ (runProgram cfg6 env0).1
    ∧ cmdsNamed "scanimage" (runProgram cfg6 env0).1 = []
    ∧ cmdsNamed "gs" (runProgram cfg6 env0).1
        = [["gs"] ++ GS_OPTIONS
           ++ ["-sOutputFile=" ++ pathJoin env0.tempdirName "final.pdf"]]
    ∧ (runProgram cfg6 env0).2 = 0 := by
  refine ⟨of_decide_eq_true rfl, rfl, ?_, rfl⟩
  exact of_decide_eq_true rfl

theorem concatMap_eq_map {f : α → List β} {h : α → β} (l : List α)
    (H : ∀ a ∈ l, f a = [h a]) : concatMap f l = l.map h := by
  induction l with
  | nil => rfl
  | cons a l ih =>
    rw [concatMap, H a (List.mem_cons_self a l),
      ih (fun x hx => H x (List.mem_cons_of_mem a hx)), List.map_cons,
      List.singleton_append]

theorem writes_cons (ev : Event) (l : List Event) :
    writes (ev :: l) = writesOf ev ++ writes l := rfl

theorem mainBody_snd_copyOk (c : Config) (e : Env) (hck : e.copyOk = true) :
    (mainBody c e).2 = Outcome.returned := by
  unfold mainBody
  split
  · rfl
  · simp [publish, hck]

theorem runSansCheck_fst_returned (c : Config) (e : Env)
    (h : (mainBody c e).2 = Outcome.returned) :
    (runSansCheck c e).1 = (mainBody c e).1 := by
  simp only [runSansCheck, h]

theorem writes_publish (c : Config) (e : Env) (fp : String)
    (hck : e.copyOk = true) :
    writes (publish c e fp).1 = [finalOutput c] := by
  simp only [publish, hck, if_true]
  rfl

theorem writes_assembly (c : Config) (d : String) (hd1 : ¬ d = ".")
    (hd2 : pyEndsWith d "/" = false) (hd3 : strHasPfx "-" d = false) :
    writes (assembly c d).1
      = if c.pages.toNat = 1 then [] else [pathJoin d "final.pdf"] := by
  by_cases h : c.pages.toNat = 1
  · rw [assembly_one c d h, if_pos h]
    rfl
  · rw [assembly_many c d h, if_neg h]
    show ([] : List String) ++ (toolWrites (gsCommands c d) ++ []) = _
    rw [writes_gsCommand c d hd1 hd2 hd3]
    rfl

theorem writes_run (c : Config) (e : Env)
    (h1 : e.hasConvert = true) (h2 : e.hasTesseract = true)
    (h3 : e.hasScanimage = true) (h4 : e.hasGs = true)
    (hfe : e.fileExists (finalOutput c) = false) (hck : e.copyOk = true)
    (hd1 : ¬ e.tempdirName = ".") (hd2 : pyEndsWith e.tempdirName "/" = false)
    (hd3 : strHasPfx "-" e.tempdirName = false) :
    writes (runProgram c e).1
      = (List.range c.pages.toNat).map (pagePath e.tempdirName)
        ++ (List.range c.pages.toNat).map
            (fun i => withSuffix (pagePath e.tempdirName i) ".pdf")
        ++ (if c.pages.toNat = 1 then []
            else [pathJoin e.tempdirName "final.pdf"])
        ++ [finalOutput c] := by
  rw [runProgram_allPresent c e h1 h2 h3 h4,
    runSansCheck_fst_returned c e (mainBody_snd_copyOk c e hck),
    mainBody_fst c e hfe, writes_cons,
    show writesOf (Event.mkTempDir e.tempdirName) = [] from rfl,
    List.nil_append, writes_append, writes_append, writes_append,
    writes_append, writes_concatMap, writes_concatMap,
    concatMap_eq_map (List.range c.pages.toNat)
      (fun i _ => writes_captureEvents c e.tempdirName i),
    concatMap_eq_map (page_list c e.tempdirName)
      (fun p _ => writes_conversionEvents c.no_ocr p),
    writes_assembly c e.tempdirName hd1 hd2 hd3,
    writes_publish c e _ hck, page_list, List.map_map]
  show _ = _ ++ _ ++ _ ++ _
  rw [show writes [Event.rmTempDir e.tempdirName] = [] from rfl,
    List.append_nil]
  rfl

/-- Claim C9: the publish copy to the final output path is the only write
outside the scoped temporary workspace - every intermediate raster and PDF
lands inside the temporary directory, and the run's sole durable effect is
the one file at the final output path. -/
theorem scanner_C9 (c : Config) (e : Env)
    (h1 : e.hasConvert = true) (h2 : e.hasTesseract = true)
    (h3 : e.hasScanimage = true) (h4 : e.hasGs = true)
    (hfe : e.fileExists (finalOutput c) = false) (hck : e.copyOk = true)
    (hp : 0 < c.pages)
    (hd1 : ¬ e.tempdirName = ".") (hd2 : pyEndsWith e.tempdirName "/" = false)
    (hd3 : strHasPfx "-" e.tempdirName = false)
    (hout : inDir e.tempdirName (finalOutput c) = false) :
    outsideWrites e.tempdirName (runProgram c e).1 = [finalOutput c]
    ∧ ∀ p ∈ writes (runProgram c e).1,
        inDir e.tempdirName p = true ∨ p = finalOutput c := by
  have hw := writes_run c e h1 h2 h3 h4 hfe hck hd1 hd2 hd3
  have hin : ∀ p ∈ writes (runProgram c e).1,
      inDir e.tempdirName p = true ∨ p = finalOutput c := by
    intro p hmem
    rw [hw] at hmem
    simp only [List.mem_append] at hmem
    rcases hmem with ((hcap | hconv) | hasm) | hfin
    · obtain ⟨i, hi, rfl⟩ := List.mem_map.mp hcap
      exact Or.inl (inDir_pagePath e.tempdirName i hd1 hd2)
    · obtain ⟨i, hi, rfl⟩ := List.mem_map.mp hconv
      exact Or.inl (inDir_withSuffix_pagePath e.tempdirName i hd1 hd2)
    · by_cases hc1 : c.pages.toNat = 1
      · rw [if_pos hc1] at hasm
        exact absurd hasm (List.not_mem_nil p)
      · rw [if_neg hc1] at hasm
        rw [List.mem_singleton.mp hasm]
        exact Or.inl (inDir_finalPdf e.tempdirName hd1 hd2)
    · exact Or.inr (List.mem_singleton.mp hfin)
  refine ⟨?_, hin⟩
  rw [outsideWrites, hw]
  rw [List.filter_append, List.filter_append, List.filter_append]
  have hcap : ((List.range c.pages.toNat).map (pagePath e.tempdirName)).filter
      (fun p => !(inDir e.tempdirName p)) = [] := by
    rw [List.filter_eq_nil_iff]
    intro a ha
    obtain ⟨i, hi, rfl⟩ := List.mem_map.mp ha
    simp [inDir_pagePath e.tempdirName i hd1 hd2]
  have hconv : ((List.range c.pages.toNat).map
      (fun i => withSuffix (pagePath e.tempdirName i) ".pdf")).filter
      (fun p => !(inDir e.tempdirName p)) = [] := by
    rw [List.filter_eq_nil_iff]
    intro a ha
    obtain ⟨i, hi, rfl⟩ := List.mem_map.mp ha
    simp [inDir_withSuffix_pagePath e.tempdirName i hd1 hd2]
  have hasm : (if c.pages.toNat = 1 then ([] : List String)
      else [pathJoin e.tempdirName "final.pdf"]).filter
      (fun p => !(inDir e.tempdirName p)) = [] := by
    by_cases hc1 : c.pages.toNat = 1
    · rw [if_pos hc1]
      rfl
    · rw [if_neg hc1]
      simp [inDir_finalPdf e.tempdirName hd1 hd2]
  rw [hcap, hconv, hasm]
  simp [hout]

theorem scanner_C9_witness :
    (0 : Int) < cfg0.pages
    ∧ outsideWrites env0.tempdirName (runProgram cfg0 env0).1
        = [finalOutput cfg0]
    ∧ ∀ p ∈ writes (runProgram cfg0 env0).1,
        inDir env0.tempdirName p = true ∨ p = finalOutput cfg0 :=
  ⟨by decide,
    (scanner_C9 cfg0 env0 rfl rfl rfl rfl rfl rfl (by decide) (by decide)
      (by decide) (by decide) (by decide)).1,
    (scanner_C9 cfg0 env0 rfl rfl rfl rfl rfl rfl (by decide) (by decide)
      (by decide) (by decide) (by decide)).2⟩


end Scanner
